import Mathlib

set_option maxRecDepth 4000

/-
Shallow embedding of the ATL calculator backend (src/calculator.py, src/config.py,
src/server.py) for checking the natural-language specification against the code.

Numeric values (Python floats) are modelled as rationals.  Python dicts whose keys
the code reads are modelled as structures with `Option` fields (a `none` field is an
absent key).  The native ctypes library and the JSON specification document are
modelled as an explicit environment `Env`, since the code only observes them through
the bound functions and the parsed document.
-/

namespace ATLCalc

/-! ## config.py -/

/-- `Config.RED_CALCULATOR_DEFAULT_DRIVE = 100  # [%]` (src/config.py line 7). -/
def RED_CALCULATOR_DEFAULT_DRIVE : ℚ := 100

/-- `Config.RED_CALCULATOR_DEFAULT_EFFICIENCY = 100  # [%]` (src/config.py line 8). -/
def RED_CALCULATOR_DEFAULT_EFFICIENCY : ℚ := 100

/-! ## Python primitives used by the code -/

/-- Floor of a rational, written with `Int.fdiv` so it evaluates by kernel
reduction. -/
def ratFloor (x : ℚ) : ℤ := Int.fdiv x.num (x.den : ℤ)

/-- Python `round` to an integer: round-half-to-even. -/
def roundHalfEven (x : ℚ) : ℤ :=
  let f : ℤ := ratFloor x
  let frac : ℚ := x - (f : ℚ)
  if frac < 1/2 then f
  else if 1/2 < frac then f + 1
  else if f % 2 = 0 then f else f + 1

/-- Python `round(x, 1)`: one decimal place, half to even. -/
def pyRound1 (x : ℚ) : ℚ := (roundHalfEven (x * 10) : ℚ) / 10

/-- Python `round(x, 2)`: two decimal places, half to even. -/
def pyRound2 (x : ℚ) : ℚ := (roundHalfEven (x * 100) : ℚ) / 100

/-- Continuation of a Python integer-literal body after its first digit:
each further position is a digit, or a single underscore followed by a digit
(so `1_`, `1__0` fail while `1_0` parses). -/
def digitsToNatAux : List Char → ℕ → Option ℕ
  | [], acc => some acc
  | '_' :: c :: rest, acc =>
    if c.isDigit then digitsToNatAux rest (acc * 10 + (c.toNat - 48)) else none
  | '_' :: [], _ => none
  | c :: rest, acc =>
    if c.isDigit then digitsToNatAux rest (acc * 10 + (c.toNat - 48)) else none

/-- Body of a Python integer literal: a leading decimal digit, then digits with
single underscores allowed between digits; `none` on anything else. -/
def digitsToNat (cs : List Char) : Option ℕ :=
  match cs with
  | [] => none
  | c :: rest =>
    if c.isDigit then digitsToNatAux rest (c.toNat - 48) else none

/-- Python `int(s)` on a string: optional surrounding whitespace, optional sign,
then decimal digits with single underscores allowed between digits
(`int("1_0") = 10`, while `int("_1")`, `int("1_")`, `int("1__0")` raise);
anything else raises `ValueError`, modelled as `none`.  Non-ASCII Unicode digit
forms are not modelled; no key in scope uses them. -/
def pyInt (s : String) : Option ℤ :=
  match s.trim.toList with
  | [] => none
  | '-' :: rest => (digitsToNat rest).map fun n => -(n : ℤ)
  | '+' :: rest => (digitsToNat rest).map fun n => (n : ℤ)
  | cs => (digitsToNat cs).map fun n => (n : ℤ)

/-! ## Data model -/

/-- One bound from `operational_limits` in `resources/supported_systems.json`:
`{min, max, unit}`. -/
structure RangeLimit where
  min : ℚ
  max : ℚ
  unit : String
deriving DecidableEq

/-- The value `get_parameter_ranges` returns: flow and uvt bounds. -/
structure Ranges where
  flow : RangeLimit
  uvt : RangeLimit
deriving DecidableEq

/-- A per-system entry of the catalog document; `operational_limits` may be absent. -/
structure SystemSpec where
  operational_limits : Option Ranges

/-- What `_load_system_specifications` hands to `get_parameter_ranges`:
the Python dict is `{}` when the file is missing or unparsable (`emptyDoc`),
may lack the `supported_systems` key (`missingKey`), or carries the key with
a system-keyed mapping (`withSystems`). -/
inductive SpecsDict
  | emptyDoc
  | missingKey
  | withSystems (systems : List (String × SystemSpec))

/-- `REDLibrary.get_parameter_ranges` (src/calculator.py lines 291-325):
`None` when the dict is falsy, lacks `supported_systems`, lacks the system,
or the system lacks `operational_limits`. -/
def getParameterRanges (specs : SpecsDict) (system_type : String) : Option Ranges :=
  match specs with
  | .emptyDoc => none
  | .missingKey => none
  | .withSystems systems =>
    match systems.lookup system_type with
    | none => none
    | some spec =>
      match spec.operational_limits with
      | none => none
      | some limits => some limits

/-- A `power_settings` / `efficiency_settings` dict: optional `all_lamps` value and
optional `specific_lamps` sub-dict (insertion-ordered string-keyed entries). -/
structure Settings where
  all_lamps : Option ℚ
  specific_lamps : Option (List (String × ℚ))
deriving DecidableEq

/-- Python truthiness of a settings dict: non-empty iff some key is present. -/
def Settings.isTruthy (s : Settings) : Bool :=
  s.all_lamps.isSome || s.specific_lamps.isSome

/-- Python `x or d` on an optional settings dict (`None` and `{}` are falsy). -/
def pyOr (os : Option Settings) (d : Settings) : Settings :=
  match os with
  | none => d
  | some s => if s.isTruthy then s else d

/-- The empty dict `{}`. -/
def emptySettings : Settings := ⟨none, none⟩

/-- The literal `{"all_lamps": 80.0}` used as the echoed efficiency default. -/
def eff80 : Settings := ⟨some 80, none⟩

/-- One entry of the `errors` dict built by the range check:
`{value, min, max, unit}` with the value rounded for display. -/
structure RangeViolation where
  value : ℚ
  min : ℚ
  max : ℚ
  unit : String
deriving DecidableEq

/-- The `error` sub-dict of an error outcome: a `type` tag plus either a
`message` key or (for the range check only) an `errors` key. -/
structure PyError where
  type : String
  message : Option String
  errors : Option (List (String × RangeViolation))
deriving DecidableEq

/-- The `parameters` sub-dict echoed in every error outcome of `calculate_red`:
`system_type`, `flow`, `uvt` always; settings keys only on some branches. -/
structure Params where
  system_type : String
  flow : ℚ
  uvt : ℚ
  power_settings : Option Settings
  efficiency_settings : Option Settings
deriving DecidableEq

/-- The `details` dict of a successful `calculate_red` outcome
(src/calculator.py lines 565-583); `uvt215 = none` models the `"N/A"` sentinel. -/
structure SuccessDetails where
  system_type : String
  number_of_lamps : ℕ
  lamp_power_watts : ℚ
  flow : ℚ
  uvt : ℚ
  uvt215 : Option ℚ
  d1_log : ℚ
  power : List ℚ
  efficiency : List ℚ
deriving DecidableEq

/-- The dict `calculate_red` returns: `status` is `"success"` with `result` and
`details`, or `"error"` with `error` and `parameters`. -/
inductive Outcome
  | success (result : ℚ) (details : SuccessDetails)
  | error (e : PyError) (parameters : Params)
deriving DecidableEq

/-- The `parameters` echoed by pressure-drop failures. -/
structure PDParams where
  system_type : String
  flow : ℚ
deriving DecidableEq

/-- The dict `calculate_pressure_drop` returns (success carries `result` and `unit`). -/
inductive PDOutcome
  | success (result : ℚ) (unit : String)
  | error (e : PyError) (parameters : PDParams)
deriving DecidableEq

/-- The environment a `REDLibrary` instance observes: the native module
(supported-systems index, lamp count, lamp power, per-system RED function,
pressure drop) and the parsed specification document. -/
structure Env where
  supported_systems : List String
  specs : SpecsDict
  lamp_count : String → ℕ
  lamp_power : String → ℚ
  red_function : String → Option (ℚ → ℚ → ℚ → List ℚ → List ℚ → ℚ → ℕ → ℚ)
  pressure_drop : String → ℚ → ℚ

/-! ## Parameter validation and array building -/

/-- The `validation_errors` dict built by `calculate_red`
(src/calculator.py lines 380-395): flow entry then uvt entry, each present
iff the value is strictly outside its inclusive `[min, max]` bound. -/
def rangeValidationErrors (r : Ranges) (flow uvt : ℚ) : List (String × RangeViolation) :=
  (if flow < r.flow.min ∨ flow > r.flow.max then
    [("flow", ⟨pyRound1 flow, r.flow.min, r.flow.max, r.flow.unit⟩)]
   else []) ++
  (if uvt < r.uvt.min ∨ uvt > r.uvt.max then
    [("uvt", ⟨pyRound1 uvt, r.uvt.min, r.uvt.max, r.uvt.unit⟩)]
   else [])

/-- How the `specific_lamps` loop aborts: an index outside `[1, n_lamps]`
("Invalid lamp index ...") or a key `int()` cannot parse ("Invalid lamp ...
setting for lamp ..."). -/
inductive LampSetErr
  | invalidIndex (key : String)
  | invalidSetting (key : String)
deriving DecidableEq

/-- The `specific_lamps` loop (src/calculator.py lines 442-474 and 482-514):
each 1-based string key is parsed with `int`, converted to a 0-based offset,
bounds-checked, and the array entry overwritten; the first bad entry aborts. -/
def applySpecificLamps (n : ℕ) : List (String × ℚ) → List ℚ → Except LampSetErr (List ℚ)
  | [], arr => .ok arr
  | (key, v) :: rest, arr =>
    match pyInt key with
    | none => .error (.invalidSetting key)
    | some i =>
      if 0 ≤ i - 1 ∧ i - 1 < (n : ℤ) then
        applySpecificLamps n rest (arr.set (i - 1).toNat v)
      else .error (.invalidIndex key)

/-- Building one lamp array (src/calculator.py lines 432-446 for power,
434 and 477-514 for efficiency): default-fill, then the `all_lamps` broadcast,
then the `specific_lamps` overrides; the settings block runs only when the
dict is truthy. -/
def buildArray (n : ℕ) (dflt : ℚ) (os : Option Settings) : Except LampSetErr (List ℚ) :=
  match os with
  | none => .ok (List.replicate n dflt)
  | some s =>
    if s.isTruthy then
      let base := match s.all_lamps with
        | some v => List.replicate n v
        | none => List.replicate n dflt
      match s.specific_lamps with
      | some entries => applySpecificLamps n entries base
      | none => .ok base
    else .ok (List.replicate n dflt)

/-- The `f"Invalid lamp index {idx}. System has {n} lamps"` message. -/
def invalidIndexMsg (key : String) (n : ℕ) : String :=
  s!"Invalid lamp index {key}. System has {n} lamps"

/-! ## calculate_red (src/calculator.py lines 342-597) -/

/-- `REDLibrary.calculate_red`, translated branch by branch from
src/calculator.py lines 342-597 against the environment `env`. -/
def calculate_red (env : Env) (system_type : String) (flow uvt uvt215 d1_log : ℚ)
    (power_settings efficiency_settings : Option Settings) : Outcome :=
  if system_type ∉ env.supported_systems then
    .error ⟨"system", some s!"System type \x27{system_type}\x27 not found", none⟩
      ⟨system_type, flow, uvt, none, none⟩
  else
    match getParameterRanges env.specs system_type with
    | none =>
      .error
        ⟨"system", some s!"Could not get valid parameter ranges for system {system_type}", none⟩
        ⟨system_type, flow, uvt, none, none⟩
    | some ranges =>
      if rangeValidationErrors ranges flow uvt ≠ [] then
        .error ⟨"validation", none, some (rangeValidationErrors ranges flow uvt)⟩
          ⟨system_type, flow, uvt, some (pyOr power_settings emptySettings),
           some (pyOr efficiency_settings eff80)⟩
      else
        if env.lamp_count system_type = 0 then
          .error ⟨"system", some s!"Could not get lamp count for system {system_type}", none⟩
            ⟨system_type, flow, uvt, none, none⟩
        else
          match buildArray (env.lamp_count system_type) RED_CALCULATOR_DEFAULT_DRIVE
              power_settings with
          | .error (.invalidIndex key) =>
            .error
              ⟨"validation", some (invalidIndexMsg key (env.lamp_count system_type)), none⟩
              ⟨system_type, flow, uvt, power_settings, none⟩
          | .error (.invalidSetting key) =>
            .error ⟨"validation", some s!"Invalid lamp power setting for lamp {key}", none⟩
              ⟨system_type, flow, uvt, power_settings, none⟩
          | .ok power =>
            match buildArray (env.lamp_count system_type) RED_CALCULATOR_DEFAULT_EFFICIENCY
                efficiency_settings with
            | .error (.invalidIndex key) =>
              .error
                ⟨"validation", some (invalidIndexMsg key (env.lamp_count system_type)), none⟩
                ⟨system_type, flow, uvt, none, efficiency_settings⟩
            | .error (.invalidSetting key) =>
              .error
                ⟨"validation", some s!"Invalid lamp efficiency setting for lamp {key}", none⟩
                ⟨system_type, flow, uvt, none, efficiency_settings⟩
            | .ok efficiency =>
              match env.red_function system_type with
              | none =>
                .error
                  ⟨"system",
                   some s!"Could not get RED calculation function for system {system_type}",
                   none⟩
                  ⟨system_type, flow, uvt, none, none⟩
              | some red_func =>
                if red_func flow uvt uvt215 power efficiency d1_log
                    (env.lamp_count system_type) ≤ 0 then
                  .error ⟨"calculation", some "Calculation resulted in invalid RED value", none⟩
                    ⟨system_type, flow, uvt, some (pyOr power_settings emptySettings),
                     some (pyOr efficiency_settings eff80)⟩
                else
                  .success
                    (pyRound1 (red_func flow uvt uvt215 power efficiency d1_log
                      (env.lamp_count system_type)))
                    ⟨system_type, env.lamp_count system_type,
                     pyRound1 (env.lamp_power system_type), flow, uvt,
                     (if uvt215 > 0 then some uvt215 else none), d1_log,
                     power.map pyRound1, efficiency.map pyRound1⟩

/-- Modelled from the spec: `REDLibrary.calculate_pressure_drop` is invoked by
src/server.py (lines 215 and 334) and asserted on by src/tests/test_pressure_drop.py,
but its definition is not under src/.  Per spec §4.5 it follows the validation-first,
sentinel-check pattern of `calculate_red` without lamp arrays: an unresolvable
system type is a `Failure::system`, a non-positive flow a `Failure::validation`,
a non-positive native result a `Failure::calculation`, a positive result a success
(the tests fix the unit `"[cmH2O]"` and a two-decimal rounding). -/
def calculate_pressure_drop (env : Env) (system_type : String) (flow : ℚ) : PDOutcome :=
  if system_type ∉ env.supported_systems then
    .error ⟨"system", some s!"System type \x27{system_type}\x27 not found", none⟩
      ⟨system_type, flow⟩
  else if flow ≤ 0 then
    .error ⟨"validation", some "Flow rate must be positive", none⟩ ⟨system_type, flow⟩
  else
    if env.pressure_drop system_type flow ≤ 0 then
      .error ⟨"calculation", some "Calculation resulted in invalid pressure drop value", none⟩
        ⟨system_type, flow⟩
    else
      .success (pyRound2 (env.pressure_drop system_type flow)) "[cmH2O]"

/-! ## Concrete test environments (for witnesses and counterexamples) -/

/-- Ranges mirroring a catalog entry for a two-lamp system. -/
def testRanges : Ranges := ⟨⟨10, 500, "m3/h"⟩, ⟨25, 98, "%"⟩⟩

/-- A well-formed environment: one known system `RZ-104-11` with two lamps. -/
def testEnv : Env where
  supported_systems := ["RZ-104-11"]
  specs := .withSystems [("RZ-104-11", ⟨some testRanges⟩)]
  lamp_count := fun s => if s = "RZ-104-11" then 2 else 0
  lamp_power := fun _ => 250
  red_function := fun s =>
    if s = "RZ-104-11" then some (fun flow uvt _ _ _ _ _ => flow + uvt) else none
  pressure_drop := fun _ flow => 222 / 1000000 * flow * flow

/-- Like `testEnv` but the native RED function returns the non-positive sentinel. -/
def zeroDoseEnv : Env where
  supported_systems := ["RZ-104-11"]
  specs := .withSystems [("RZ-104-11", ⟨some testRanges⟩)]
  lamp_count := fun s => if s = "RZ-104-11" then 2 else 0
  lamp_power := fun _ => 250
  red_function := fun s =>
    if s = "RZ-104-11" then some (fun _ _ _ _ _ _ _ => 0) else none
  pressure_drop := fun _ flow => 222 / 1000000 * flow * flow

/-- Like `testEnv` but the specification document is missing (`{}` was returned). -/
def missingDocEnv : Env where
  supported_systems := ["RZ-104-11"]
  specs := .emptyDoc
  lamp_count := fun s => if s = "RZ-104-11" then 2 else 0
  lamp_power := fun _ => 250
  red_function := fun s =>
    if s = "RZ-104-11" then some (fun flow uvt _ _ _ _ _ => flow + uvt) else none
  pressure_drop := fun _ flow => 222 / 1000000 * flow * flow

/-- Like `testEnv` but the catalog document maps `supported_systems` to no entries. -/
def emptyCatalogEnv : Env where
  supported_systems := ["RZ-104-11"]
  specs := .withSystems []
  lamp_count := fun s => if s = "RZ-104-11" then 2 else 0
  lamp_power := fun _ => 250
  red_function := fun s =>
    if s = "RZ-104-11" then some (fun flow uvt _ _ _ _ _ => flow + uvt) else none
  pressure_drop := fun _ flow => 222 / 1000000 * flow * flow

/-! ## Claim theorems -/

/-- C1: `calculate_pressure_drop(system_type, flow)` always returns a structured
outcome (one of the two variants, never an uncaught fault); it fails with a
`system`-kind failure when the system type is unresolvable, and with a
`validation`-kind failure when `flow` is non-positive on a known system. -/
theorem c1_pressure_drop_outcome (env : Env) (system_type : String) (flow : ℚ) :
    ((∃ v u, calculate_pressure_drop env system_type flow = .success v u) ∨
     (∃ e p, calculate_pressure_drop env system_type flow = .error e p)) ∧
    (system_type ∉ env.supported_systems →
      calculate_pressure_drop env system_type flow =
        .error ⟨"system", some s!"System type \x27{system_type}\x27 not found", none⟩
          ⟨system_type, flow⟩) ∧
    (system_type ∈ env.supported_systems → flow ≤ 0 →
      calculate_pressure_drop env system_type flow =
        .error ⟨"validation", some "Flow rate must be positive", none⟩
          ⟨system_type, flow⟩) := by
  refine ⟨?_, ?_, ?_⟩
  · cases hE : calculate_pressure_drop env system_type flow with
    | success v u => exact Or.inl ⟨v, u, rfl⟩
    | error e p => exact Or.inr ⟨e, p, rfl⟩
  · intro h
    unfold calculate_pressure_drop
    rw [if_pos h]
  · intro h hf
    unfold calculate_pressure_drop
    rw [if_neg (not_not_intro h), if_pos hf]

/-- Witness for C1 at concrete inputs: flow `0` on the known system `RZ-104-11`
gives the validation failure, and the unknown system `NOPE` the system failure. -/
theorem c1_pressure_drop_outcome_witness :
    ("RZ-104-11" ∈ testEnv.supported_systems ∧ (0 : ℚ) ≤ 0 ∧
      calculate_pressure_drop testEnv "RZ-104-11" 0 =
        .error ⟨"validation", some "Flow rate must be positive", none⟩ ⟨"RZ-104-11", 0⟩) ∧
    ("NOPE" ∉ testEnv.supported_systems ∧
      calculate_pressure_drop testEnv "NOPE" 100 =
        .error ⟨"system", some "System type \x27NOPE\x27 not found", none⟩ ⟨"NOPE", 100⟩) :=
  ⟨⟨by decide, le_refl 0,
    (c1_pressure_drop_outcome testEnv "RZ-104-11" 0).2.2 (by decide) (le_refl 0)⟩,
   ⟨by decide,
    (c1_pressure_drop_outcome testEnv "NOPE" 100).2.1 (by decide)⟩⟩

/-- C2 counterexample: the range-bounds failure of `calculate_red` carries an
`errors` map but no `message` field, so not every failure outcome carries an
error kind *and message* as the claim states. -/
theorem c2_failure_without_message_cex :
    calculate_red testEnv "RZ-104-11" 1000 85 (-1) 18 none none =
      .error ⟨"validation", none, some [("flow", ⟨1000, 10, 500, "m3/h"⟩)]⟩
        ⟨"RZ-104-11", 1000, 85, some emptySettings, some eff80⟩ := by
  with_unfolding_all rfl

/-- C2 (amended): `calculate_red` always returns exactly one of the two outcome
variants, never an exception; every failure echoes `system_type`, `flow` and
`uvt`, and carries an error kind together with either a message or a
field-keyed errors map. -/
theorem c2_tagged_outcome (env : Env) (st : String) (flow uvt uvt215 d1 : ℚ)
    (ps es : Option Settings) :
    (∃ v d, calculate_red env st flow uvt uvt215 d1 ps es = .success v d) ∨
    (∃ e p, calculate_red env st flow uvt uvt215 d1 ps es = .error e p ∧
      p.system_type = st ∧ p.flow = flow ∧ p.uvt = uvt ∧
      (e.message.isSome ∨ e.errors.isSome)) := by
  unfold calculate_red
  repeat' split
  all_goals first
    | exact Or.inl ⟨_, _, rfl⟩
    | exact Or.inr ⟨_, _, rfl, rfl, rfl, rfl, Or.inl rfl⟩
    | exact Or.inr ⟨_, _, rfl, rfl, rfl, rfl, Or.inr rfl⟩

/-- C3 counterexample: a missing catalog document (the code returns `{}`) is
treated exactly like a catalog with an empty system set — `get_parameter_ranges`
returns `None` in both cases and `calculate_red` produces the identical generic
`system`-kind failure, not a distinct malformed-catalog error. -/
theorem c3_missing_doc_not_distinguished_cex :
    getParameterRanges SpecsDict.emptyDoc "RZ-104-11" = none ∧
    getParameterRanges (SpecsDict.withSystems []) "RZ-104-11" = none ∧
    calculate_red missingDocEnv "RZ-104-11" 100 85 (-1) 18 none none =
      calculate_red emptyCatalogEnv "RZ-104-11" 100 85 (-1) 18 none none ∧
    calculate_red missingDocEnv "RZ-104-11" 100 85 (-1) 18 none none =
      .error
        ⟨"system", some "Could not get valid parameter ranges for system RZ-104-11", none⟩
        ⟨"RZ-104-11", 100, 85, none, none⟩ :=
  ⟨by with_unfolding_all rfl, by with_unfolding_all rfl,
   by with_unfolding_all rfl, by with_unfolding_all rfl⟩

/-- C3 (amended): a missing document, a document lacking the `supported_systems`
key, and a document with an empty system set all make `get_parameter_ranges`
return `None` for every system, and `calculate_red` maps that uniformly to the
generic `system`-kind parameter-ranges failure — no distinct malformed-catalog
error exists. -/
theorem c3_missing_doc_is_empty_catalog (st : String) :
    getParameterRanges SpecsDict.emptyDoc st = none ∧
    getParameterRanges SpecsDict.missingKey st = none ∧
    getParameterRanges (SpecsDict.withSystems []) st = none ∧
    (∀ (env : Env) (flow uvt uvt215 d1 : ℚ) (ps es : Option Settings),
      st ∈ env.supported_systems →
      getParameterRanges env.specs st = none →
      calculate_red env st flow uvt uvt215 d1 ps es =
        .error
          ⟨"system", some s!"Could not get valid parameter ranges for system {st}", none⟩
          ⟨st, flow, uvt, none, none⟩) := by
  refine ⟨rfl, rfl, rfl, ?_⟩
  intro env flow uvt uvt215 d1 ps es h1 h2
  unfold calculate_red
  rw [if_neg (not_not_intro h1)]
  simp only [h2]

/-- Witness for C3 (amended) with the missing-document environment. -/
theorem c3_missing_doc_is_empty_catalog_witness :
    getParameterRanges SpecsDict.emptyDoc "RZ-104-11" = none ∧
    ("RZ-104-11" ∈ missingDocEnv.supported_systems ∧
      getParameterRanges missingDocEnv.specs "RZ-104-11" = none ∧
      calculate_red missingDocEnv "RZ-104-11" 100 85 (-1) 18 none none =
        .error
          ⟨"system", some "Could not get valid parameter ranges for system RZ-104-11", none⟩
          ⟨"RZ-104-11", 100, 85, none, none⟩) :=
  ⟨(c3_missing_doc_is_empty_catalog "RZ-104-11").1,
   by decide, rfl,
   (c3_missing_doc_is_empty_catalog "RZ-104-11").2.2.2 missingDocEnv 100 85 (-1) 18 none none
     (by decide) rfl⟩

/-- C4: on a system type absent from the native supported-systems index,
`calculate_red` returns a `system`-kind failure whose message names the unknown
system, and the outcome is a constant independent of the native function table
(lamp count, lamp power, RED function) — no native calculation call is made. -/
theorem c4_unknown_system_no_native_call (env : Env) (system_type : String)
    (flow uvt uvt215 d1_log : ℚ) (ps es : Option Settings)
    (h : system_type ∉ env.supported_systems) :
    calculate_red env system_type flow uvt uvt215 d1_log ps es =
      .error ⟨"system", some s!"System type \x27{system_type}\x27 not found", none⟩
        ⟨system_type, flow, uvt, none, none⟩ ∧
    (∀ env2 : Env, system_type ∉ env2.supported_systems →
      calculate_red env2 system_type flow uvt uvt215 d1_log ps es =
        calculate_red env system_type flow uvt uvt215 d1_log ps es) := by
  have key : ∀ (e : Env), system_type ∉ e.supported_systems →
      calculate_red e system_type flow uvt uvt215 d1_log ps es =
        .error ⟨"system", some s!"System type \x27{system_type}\x27 not found", none⟩
          ⟨system_type, flow, uvt, none, none⟩ := by
    intro e he
    unfold calculate_red
    rw [if_pos he]
  exact ⟨key env h, fun env2 h2 => (key env2 h2).trans (key env h).symm⟩

/-- Witness for C4 at the concrete unknown system `NOPE`. -/
theorem c4_unknown_system_no_native_call_witness :
    "NOPE" ∉ testEnv.supported_systems ∧
    calculate_red testEnv "NOPE" 100 85 (-1) 18 none none =
      .error ⟨"system", some "System type \x27NOPE\x27 not found", none⟩
        ⟨"NOPE", 100, 85, none, none⟩ :=
  ⟨by decide,
   (c4_unknown_system_no_native_call testEnv "NOPE" 100 85 (-1) 18 none none (by decide)).1⟩

/-- C7: the `all_lamps` broadcast is applied to every lamp first and
`specific_lamps` afterwards, overriding only the named indices: on the 2-lamp
system, `{all_lamps: 90}` with `{specific_lamps: {"1": 50}}` yields the power
array `[50, 90]`, not `[50, 50]`, both in the built array and in the success
details of `calculate_red`. -/
theorem c7_broadcast_then_override :
    buildArray 2 RED_CALCULATOR_DEFAULT_DRIVE (some ⟨some 90, some [("1", 50)]⟩) =
      .ok [50, 90] ∧
    calculate_red testEnv "RZ-104-11" 100 85 (-1) 18
        (some ⟨some 90, some [("1", 50)]⟩) none =
      .success 185 ⟨"RZ-104-11", 2, 250, 100, 85, none, 18, [50, 90], [100, 100]⟩ :=
  ⟨by with_unfolding_all rfl, by with_unfolding_all rfl⟩

/-- C5: flow and uvt are each checked against their inclusive `[min, max]`
catalog bound, independently: an in-range value contributes no violation for
its field, a strictly-out-of-range value contributes a violation keyed by
exactly that field carrying the value rounded to one decimal place plus the
min, max and unit of the bound; when both are out of range both violations
appear in the single returned failure of `calculate_red`. -/
theorem c5_bounds_check (r : Ranges) (flow uvt : ℚ) :
    ((r.flow.min ≤ flow ∧ flow ≤ r.flow.max) →
      ∀ v, ("flow", v) ∉ rangeValidationErrors r flow uvt) ∧
    ((r.uvt.min ≤ uvt ∧ uvt ≤ r.uvt.max) →
      ∀ v, ("uvt", v) ∉ rangeValidationErrors r flow uvt) ∧
    ((flow < r.flow.min ∨ flow > r.flow.max) →
      ("flow", ⟨pyRound1 flow, r.flow.min, r.flow.max, r.flow.unit⟩) ∈
        rangeValidationErrors r flow uvt) ∧
    ((uvt < r.uvt.min ∨ uvt > r.uvt.max) →
      ("uvt", ⟨pyRound1 uvt, r.uvt.min, r.uvt.max, r.uvt.unit⟩) ∈
        rangeValidationErrors r flow uvt) ∧
    ((flow < r.flow.min ∨ flow > r.flow.max) → (uvt < r.uvt.min ∨ uvt > r.uvt.max) →
      rangeValidationErrors r flow uvt =
        [("flow", ⟨pyRound1 flow, r.flow.min, r.flow.max, r.flow.unit⟩),
         ("uvt", ⟨pyRound1 uvt, r.uvt.min, r.uvt.max, r.uvt.unit⟩)]) ∧
    (∀ (env : Env) (st : String) (uvt215 d1 : ℚ) (ps es : Option Settings),
      st ∈ env.supported_systems →
      getParameterRanges env.specs st = some r →
      rangeValidationErrors r flow uvt ≠ [] →
      calculate_red env st flow uvt uvt215 d1 ps es =
        .error ⟨"validation", none, some (rangeValidationErrors r flow uvt)⟩
          ⟨st, flow, uvt, some (pyOr ps emptySettings), some (pyOr es eff80)⟩) := by
  refine ⟨?_, ?_, ?_, ?_, ?_, ?_⟩
  · rintro ⟨h1, h2⟩ v hv
    have hf : ¬(flow < r.flow.min ∨ flow > r.flow.max) := by
      push_neg
      exact ⟨h1, h2⟩
    simp only [rangeValidationErrors, if_neg hf, List.nil_append] at hv
    split at hv <;> simp_all
  · rintro ⟨h1, h2⟩ v hv
    have hu : ¬(uvt < r.uvt.min ∨ uvt > r.uvt.max) := by
      push_neg
      exact ⟨h1, h2⟩
    simp only [rangeValidationErrors, if_neg hu, List.append_nil] at hv
    split at hv <;> simp_all
  · intro hf
    simp [rangeValidationErrors, if_pos hf]
  · intro hu
    simp [rangeValidationErrors, if_pos hu]
  · intro hf hu
    simp [rangeValidationErrors, if_pos hf, if_pos hu]
  · intro env st uvt215 d1 ps es h1 h2 h3
    unfold calculate_red
    rw [if_neg (not_not_intro h1)]
    simp only [h2]
    rw [if_pos h3]

/-- Witness for C5: flow `1000` and uvt `20` both violate the catalog bounds of
`RZ-104-11`, and the single failure reports both violations. -/
theorem c5_bounds_check_witness :
    ((1000 : ℚ) < testRanges.flow.min ∨ (1000 : ℚ) > testRanges.flow.max) ∧
    ((20 : ℚ) < testRanges.uvt.min ∨ (20 : ℚ) > testRanges.uvt.max) ∧
    rangeValidationErrors testRanges 1000 20 =
      [("flow", ⟨pyRound1 1000, testRanges.flow.min, testRanges.flow.max,
        testRanges.flow.unit⟩),
       ("uvt", ⟨pyRound1 20, testRanges.uvt.min, testRanges.uvt.max,
        testRanges.uvt.unit⟩)] ∧
    calculate_red testEnv "RZ-104-11" 1000 20 (-1) 18 none none =
      .error ⟨"validation", none, some (rangeValidationErrors testRanges 1000 20)⟩
        ⟨"RZ-104-11", 1000, 20, some emptySettings, some eff80⟩ :=
  have hf : (1000 : ℚ) < testRanges.flow.min ∨ (1000 : ℚ) > testRanges.flow.max := by
    right
    decide
  have hu : (20 : ℚ) < testRanges.uvt.min ∨ (20 : ℚ) > testRanges.uvt.max := by
    left
    decide
  ⟨hf, hu,
   (c5_bounds_check testRanges 1000 20).2.2.2.2.1 hf hu,
   (c5_bounds_check testRanges 1000 20).2.2.2.2.2 testEnv "RZ-104-11" (-1) 18 none none
     (by decide) rfl (by with_unfolding_all decide)⟩

/-- C6 counterexample: with a non-numeric `specific_lamps` index, `calculate_red`
fails with the message `Invalid lamp power setting for lamp x`, which is not the
invalid-lamp-index failure naming the index and the lamp count. -/
theorem c6_nonnumeric_index_cex :
    calculate_red testEnv "RZ-104-11" 100 85 (-1) 18
        (some ⟨none, some [("x", 50)]⟩) none =
      .error ⟨"validation", some "Invalid lamp power setting for lamp x", none⟩
        ⟨"RZ-104-11", 100, 85, some ⟨none, some [("x", 50)]⟩, none⟩ ∧
    "Invalid lamp power setting for lamp x" ≠ invalidIndexMsg "x" 2 :=
  ⟨by with_unfolding_all rfl, by decide⟩

/-- A `specific_lamps` entry on which the loop aborts: the key is not parseable
as an integer, or its 0-based offset falls outside `[0, n)`. -/
def badEntry (n : ℕ) (kv : String × ℚ) : Prop :=
  pyInt kv.1 = none ∨ ∃ i, pyInt kv.1 = some i ∧ ¬(0 ≤ i - 1 ∧ i - 1 < (n : ℤ))

/-- If any entry of a `specific_lamps` mapping is bad, the loop aborts with an
error, whatever array it started from. -/
lemma applySpecificLamps_error_of_bad (n : ℕ) (entries : List (String × ℚ))
    (h : ∃ kv ∈ entries, badEntry n kv) :
    ∀ arr : List ℚ, ∃ e, applySpecificLamps n entries arr = .error e := by
  induction entries with
  | nil => exact absurd h (by simp)
  | cons kv rest ih =>
    obtain ⟨key, v⟩ := kv
    intro arr
    cases hpi : pyInt key with
    | none => exact ⟨.invalidSetting key, by simp only [applySpecificLamps, hpi]⟩
    | some i =>
      by_cases hr : 0 ≤ i - 1 ∧ i - 1 < (n : ℤ)
      · have hrest : ∃ kv ∈ rest, badEntry n kv := by
          obtain ⟨kv2, hmem, hbad⟩ := h
          rcases List.mem_cons.mp hmem with heq | hmem2
          · subst heq
            rcases hbad with hnone | ⟨i2, hi2, hrange⟩
            · rw [hpi] at hnone
              exact absurd hnone (by simp)
            · rw [hpi] at hi2
              injection hi2 with hii
              subst hii
              exact absurd hr hrange
          · exact ⟨kv2, hmem2, hbad⟩
        obtain ⟨e, he⟩ := ih hrest (arr.set (i - 1).toNat v)
        refine ⟨e, ?_⟩
        simp only [applySpecificLamps, hpi]
        rw [if_pos hr]
        exact he
      · refine ⟨.invalidIndex key, ?_⟩
        simp only [applySpecificLamps, hpi]
        rw [if_neg hr]

/-- The `specific_lamps` loop stops at the first bad entry, and the error kind
matches that entry: after a prefix of good entries, an unparseable key aborts
with `invalidSetting` and an out-of-range offset with `invalidIndex`. -/
lemma applySpecificLamps_first_bad (n : ℕ) (key : String) (v : ℚ)
    (rest : List (String × ℚ)) :
    ∀ pre : List (String × ℚ), (∀ kv ∈ pre, ¬ badEntry n kv) → ∀ arr : List ℚ,
      (pyInt key = none →
        applySpecificLamps n (pre ++ (key, v) :: rest) arr =
          .error (.invalidSetting key)) ∧
      (∀ i, pyInt key = some i → ¬(0 ≤ i - 1 ∧ i - 1 < (n : ℤ)) →
        applySpecificLamps n (pre ++ (key, v) :: rest) arr =
          .error (.invalidIndex key)) := by
  intro pre
  induction pre with
  | nil =>
    intro _ arr
    constructor
    · intro hnone
      simp only [List.nil_append, applySpecificLamps, hnone]
    · intro i hi hr
      simp only [List.nil_append, applySpecificLamps, hi]
      rw [if_neg hr]
  | cons kv2 pre2 ih =>
    intro hgood arr
    obtain ⟨k2, v2⟩ := kv2
    have hk2 : ¬ badEntry n (k2, v2) := hgood _ (List.mem_cons_self _ _)
    cases hpy : pyInt k2 with
    | none => exact absurd (show badEntry n (k2, v2) from Or.inl hpy) hk2
    | some j =>
      have hrange : 0 ≤ j - 1 ∧ j - 1 < (n : ℤ) := by
        by_contra hc
        exact hk2 (Or.inr ⟨j, hpy, hc⟩)
      have hgood2 : ∀ kv ∈ pre2, ¬ badEntry n kv := fun kv hm =>
        hgood kv (List.mem_cons_of_mem _ hm)
      have step : applySpecificLamps n (((k2, v2) :: pre2) ++ (key, v) :: rest) arr =
          applySpecificLamps n (pre2 ++ (key, v) :: rest) (arr.set (j - 1).toNat v2) := by
        simp only [List.cons_append, applySpecificLamps, hpy]
        rw [if_pos hrange]
        rfl
      constructor
      · intro hnone
        rw [step]
        exact (ih hgood2 _).1 hnone
      · intro i hi hr
        rw [step]
        exact (ih hgood2 _).2 i hi hr

/-- C6 (amended): any `specific_lamps` override — in the power or the
efficiency settings — containing an index of `0`, an index above the lamp
count, or a non-numeric index makes `calculate_red` fail with a validation
failure: out-of-range indices with the invalid-lamp-index message naming the
index and the lamp count, non-numeric ones with the invalid-lamp-setting
message naming only the index.  No lamp plan or array is returned: the whole
build aborts into the error outcome, which echoes only the request
parameters. -/
theorem c6_bad_lamp_index_aborts (env : Env) (st : String)
    (flow uvt uvt215 d1 : ℚ) (r : Ranges)
    (h1 : st ∈ env.supported_systems)
    (h2 : getParameterRanges env.specs st = some r)
    (h3 : rangeValidationErrors r flow uvt = [])
    (h4 : env.lamp_count st ≠ 0) :
    (∀ (ps : Settings) (es : Option Settings) (pre : List (String × ℚ)) (key : String)
      (v : ℚ) (rest : List (String × ℚ)),
      ps.specific_lamps = some (pre ++ (key, v) :: rest) →
      (∀ kv ∈ pre, ¬ badEntry (env.lamp_count st) kv) →
      (pyInt key = none →
        calculate_red env st flow uvt uvt215 d1 (some ps) es =
          .error ⟨"validation", some s!"Invalid lamp power setting for lamp {key}", none⟩
            ⟨st, flow, uvt, some ps, none⟩) ∧
      (∀ i, pyInt key = some i → ¬(0 ≤ i - 1 ∧ i - 1 < (env.lamp_count st : ℤ)) →
        calculate_red env st flow uvt uvt215 d1 (some ps) es =
          .error ⟨"validation", some (invalidIndexMsg key (env.lamp_count st)), none⟩
            ⟨st, flow, uvt, some ps, none⟩)) ∧
    (∀ (ps : Option Settings) (parr : List ℚ) (es : Settings)
      (pre : List (String × ℚ)) (key : String) (v : ℚ) (rest : List (String × ℚ)),
      buildArray (env.lamp_count st) RED_CALCULATOR_DEFAULT_DRIVE ps = .ok parr →
      es.specific_lamps = some (pre ++ (key, v) :: rest) →
      (∀ kv ∈ pre, ¬ badEntry (env.lamp_count st) kv) →
      (pyInt key = none →
        calculate_red env st flow uvt uvt215 d1 ps (some es) =
          .error
            ⟨"validation", some s!"Invalid lamp efficiency setting for lamp {key}", none⟩
            ⟨st, flow, uvt, none, some es⟩) ∧
      (∀ i, pyInt key = some i → ¬(0 ≤ i - 1 ∧ i - 1 < (env.lamp_count st : ℤ)) →
        calculate_red env st flow uvt uvt215 d1 ps (some es) =
          .error ⟨"validation", some (invalidIndexMsg key (env.lamp_count st)), none⟩
            ⟨st, flow, uvt, none, some es⟩)) ∧
    (∀ (ps : Settings) (es : Option Settings) (entries : List (String × ℚ)),
      ps.specific_lamps = some entries →
      (∃ kv ∈ entries, badEntry (env.lamp_count st) kv) →
      ∃ msg, calculate_red env st flow uvt uvt215 d1 (some ps) es =
        .error ⟨"validation", some msg, none⟩ ⟨st, flow, uvt, some ps, none⟩) ∧
    (∀ (ps : Option Settings) (parr : List ℚ) (es : Settings)
      (entries : List (String × ℚ)),
      buildArray (env.lamp_count st) RED_CALCULATOR_DEFAULT_DRIVE ps = .ok parr →
      es.specific_lamps = some entries →
      (∃ kv ∈ entries, badEntry (env.lamp_count st) kv) →
      ∃ msg, calculate_red env st flow uvt uvt215 d1 ps (some es) =
        .error ⟨"validation", some msg, none⟩ ⟨st, flow, uvt, none, some es⟩) := by
  have redP1 : ∀ (ps : Settings) (es : Option Settings) (key : String),
      buildArray (env.lamp_count st) RED_CALCULATOR_DEFAULT_DRIVE (some ps) =
        .error (.invalidSetting key) →
      calculate_red env st flow uvt uvt215 d1 (some ps) es =
        .error ⟨"validation", some s!"Invalid lamp power setting for lamp {key}", none⟩
          ⟨st, flow, uvt, some ps, none⟩ := by
    intro ps es key he
    unfold calculate_red
    rw [if_neg (not_not_intro h1)]
    simp only [h2]
    rw [if_neg (fun hc => hc h3), if_neg h4]
    simp only [he]
  have redP2 : ∀ (ps : Settings) (es : Option Settings) (key : String),
      buildArray (env.lamp_count st) RED_CALCULATOR_DEFAULT_DRIVE (some ps) =
        .error (.invalidIndex key) →
      calculate_red env st flow uvt uvt215 d1 (some ps) es =
        .error ⟨"validation", some (invalidIndexMsg key (env.lamp_count st)), none⟩
          ⟨st, flow, uvt, some ps, none⟩ := by
    intro ps es key he
    unfold calculate_red
    rw [if_neg (not_not_intro h1)]
    simp only [h2]
    rw [if_neg (fun hc => hc h3), if_neg h4]
    simp only [he]
  have redE1 : ∀ (ps : Option Settings) (parr : List ℚ) (es : Settings) (key : String),
      buildArray (env.lamp_count st) RED_CALCULATOR_DEFAULT_DRIVE ps = .ok parr →
      buildArray (env.lamp_count st) RED_CALCULATOR_DEFAULT_EFFICIENCY (some es) =
        .error (.invalidSetting key) →
      calculate_red env st flow uvt uvt215 d1 ps (some es) =
        .error ⟨"validation", some s!"Invalid lamp efficiency setting for lamp {key}", none⟩
          ⟨st, flow, uvt, none, some es⟩ := by
    intro ps parr es key hp he
    unfold calculate_red
    rw [if_neg (not_not_intro h1)]
    simp only [h2]
    rw [if_neg (fun hc => hc h3), if_neg h4]
    simp only [hp, he]
  have redE2 : ∀ (ps : Option Settings) (parr : List ℚ) (es : Settings) (key : String),
      buildArray (env.lamp_count st) RED_CALCULATOR_DEFAULT_DRIVE ps = .ok parr →
      buildArray (env.lamp_count st) RED_CALCULATOR_DEFAULT_EFFICIENCY (some es) =
        .error (.invalidIndex key) →
      calculate_red env st flow uvt uvt215 d1 ps (some es) =
        .error ⟨"validation", some (invalidIndexMsg key (env.lamp_count st)), none⟩
          ⟨st, flow, uvt, none, some es⟩ := by
    intro ps parr es key hp he
    unfold calculate_red
    rw [if_neg (not_not_intro h1)]
    simp only [h2]
    rw [if_neg (fun hc => hc h3), if_neg h4]
    simp only [hp, he]
  have bfirst : ∀ (s : Settings) (dflt : ℚ) (pre : List (String × ℚ)) (key : String)
      (v : ℚ) (rest : List (String × ℚ)),
      s.specific_lamps = some (pre ++ (key, v) :: rest) →
      (∀ kv ∈ pre, ¬ badEntry (env.lamp_count st) kv) →
      (pyInt key = none →
        buildArray (env.lamp_count st) dflt (some s) = .error (.invalidSetting key)) ∧
      (∀ i, pyInt key = some i → ¬(0 ≤ i - 1 ∧ i - 1 < (env.lamp_count st : ℤ)) →
        buildArray (env.lamp_count st) dflt (some s) = .error (.invalidIndex key)) := by
    intro s dflt pre key v rest hspec hgood
    obtain ⟨sa, ss⟩ := s
    simp only at hspec
    subst hspec
    cases sa with
    | none =>
      exact ⟨fun hnone =>
          (applySpecificLamps_first_bad (env.lamp_count st) key v rest pre hgood _).1 hnone,
        fun i hi hr =>
          (applySpecificLamps_first_bad (env.lamp_count st) key v rest pre hgood _).2
            i hi hr⟩
    | some w =>
      exact ⟨fun hnone =>
          (applySpecificLamps_first_bad (env.lamp_count st) key v rest pre hgood _).1 hnone,
        fun i hi hr =>
          (applySpecificLamps_first_bad (env.lamp_count st) key v rest pre hgood _).2
            i hi hr⟩
  have bany : ∀ (s : Settings) (dflt : ℚ) (entries : List (String × ℚ)),
      s.specific_lamps = some entries →
      (∃ kv ∈ entries, badEntry (env.lamp_count st) kv) →
      ∃ e, buildArray (env.lamp_count st) dflt (some s) = .error e := by
    intro s dflt entries hspec hbad
    obtain ⟨sa, ss⟩ := s
    simp only at hspec
    subst hspec
    cases sa with
    | none =>
      exact applySpecificLamps_error_of_bad (env.lamp_count st) entries hbad _
    | some w =>
      exact applySpecificLamps_error_of_bad (env.lamp_count st) entries hbad _
  refine ⟨?_, ?_, ?_, ?_⟩
  · intro ps es pre key v rest hspec hgood
    exact ⟨fun hnone => redP1 ps es key ((bfirst ps _ pre key v rest hspec hgood).1 hnone),
      fun i hi hr => redP2 ps es key ((bfirst ps _ pre key v rest hspec hgood).2 i hi hr)⟩
  · intro ps parr es pre key v rest hp hspec hgood
    exact ⟨fun hnone =>
        redE1 ps parr es key hp ((bfirst es _ pre key v rest hspec hgood).1 hnone),
      fun i hi hr =>
        redE2 ps parr es key hp ((bfirst es _ pre key v rest hspec hgood).2 i hi hr)⟩
  · intro ps es entries hspec hbad
    obtain ⟨e, he⟩ := bany ps _ entries hspec hbad
    cases e with
    | invalidIndex key =>
      exact ⟨invalidIndexMsg key (env.lamp_count st), redP2 ps es key he⟩
    | invalidSetting key =>
      exact ⟨s!"Invalid lamp power setting for lamp {key}", redP1 ps es key he⟩
  · intro ps parr es entries hp hspec hbad
    obtain ⟨e, he⟩ := bany es _ entries hspec hbad
    cases e with
    | invalidIndex key =>
      exact ⟨invalidIndexMsg key (env.lamp_count st), redE2 ps parr es key hp he⟩
    | invalidSetting key =>
      exact ⟨s!"Invalid lamp efficiency setting for lamp {key}", redE1 ps parr es key hp he⟩

/-- Witness for C6 (amended), exercising all three abort kinds concretely on
the two-lamp system: power index `"0"` (below the 1-based minimum) and power
index `"3"` (above the lamp count) produce the invalid-lamp-index message
naming index and lamp count, and the non-numeric efficiency index `"y"`
produces the invalid-lamp-efficiency-setting message naming only the index. -/
theorem c6_bad_lamp_index_aborts_witness :
    calculate_red testEnv "RZ-104-11" 100 85 (-1) 18
        (some ⟨none, some [("0", 50)]⟩) none =
      .error ⟨"validation", some (invalidIndexMsg "0" (testEnv.lamp_count "RZ-104-11")),
          none⟩
        ⟨"RZ-104-11", 100, 85, some ⟨none, some [("0", 50)]⟩, none⟩ ∧
    calculate_red testEnv "RZ-104-11" 100 85 (-1) 18
        (some ⟨none, some [("3", 50)]⟩) none =
      .error ⟨"validation", some (invalidIndexMsg "3" (testEnv.lamp_count "RZ-104-11")),
          none⟩
        ⟨"RZ-104-11", 100, 85, some ⟨none, some [("3", 50)]⟩, none⟩ ∧
    calculate_red testEnv "RZ-104-11" 100 85 (-1) 18
        none (some ⟨none, some [("y", 70)]⟩) =
      .error ⟨"validation", some "Invalid lamp efficiency setting for lamp y", none⟩
        ⟨"RZ-104-11", 100, 85, none, some ⟨none, some [("y", 70)]⟩⟩ :=
  have hmain := c6_bad_lamp_index_aborts testEnv "RZ-104-11" 100 85 (-1) 18 testRanges
    (by decide) rfl (by with_unfolding_all decide) (by decide)
  ⟨(hmain.1 ⟨none, some [("0", 50)]⟩ none [] "0" 50 [] rfl (by simp)).2 0
      (by with_unfolding_all rfl) (by decide),
   (hmain.1 ⟨none, some [("3", 50)]⟩ none [] "3" 50 [] rfl (by simp)).2 3
      (by with_unfolding_all rfl) (by decide),
   (hmain.2.1 none [100, 100] ⟨none, some [("y", 70)]⟩ [] "y" 70 []
      (by with_unfolding_all rfl) rfl (by simp)).1 (by with_unfolding_all rfl)⟩

/-- C8: once `calculate_red` reaches the native RED function, a returned dose
`<= 0` yields a failure outcome of kind `calculation`, and only a strictly
positive dose yields a success outcome. -/
theorem c8_nonpositive_dose_sentinel (env : Env) (st : String)
    (flow uvt uvt215 d1 : ℚ) (ps es : Option Settings) (r : Ranges)
    (parr earr : List ℚ) (f : ℚ → ℚ → ℚ → List ℚ → List ℚ → ℚ → ℕ → ℚ)
    (h1 : st ∈ env.supported_systems)
    (h2 : getParameterRanges env.specs st = some r)
    (h3 : rangeValidationErrors r flow uvt = [])
    (h4 : env.lamp_count st ≠ 0)
    (h5 : buildArray (env.lamp_count st) RED_CALCULATOR_DEFAULT_DRIVE ps = .ok parr)
    (h6 : buildArray (env.lamp_count st) RED_CALCULATOR_DEFAULT_EFFICIENCY es = .ok earr)
    (h7 : env.red_function st = some f) :
    (f flow uvt uvt215 parr earr d1 (env.lamp_count st) ≤ 0 →
      calculate_red env st flow uvt uvt215 d1 ps es =
        .error ⟨"calculation", some "Calculation resulted in invalid RED value", none⟩
          ⟨st, flow, uvt, some (pyOr ps emptySettings), some (pyOr es eff80)⟩) ∧
    (0 < f flow uvt uvt215 parr earr d1 (env.lamp_count st) →
      calculate_red env st flow uvt uvt215 d1 ps es =
        .success (pyRound1 (f flow uvt uvt215 parr earr d1 (env.lamp_count st)))
          ⟨st, env.lamp_count st, pyRound1 (env.lamp_power st), flow, uvt,
           (if uvt215 > 0 then some uvt215 else none), d1,
           parr.map pyRound1, earr.map pyRound1⟩) := by
  have base : calculate_red env st flow uvt uvt215 d1 ps es =
      (if f flow uvt uvt215 parr earr d1 (env.lamp_count st) ≤ 0 then
        .error ⟨"calculation", some "Calculation resulted in invalid RED value", none⟩
          ⟨st, flow, uvt, some (pyOr ps emptySettings), some (pyOr es eff80)⟩
      else
        .success (pyRound1 (f flow uvt uvt215 parr earr d1 (env.lamp_count st)))
          ⟨st, env.lamp_count st, pyRound1 (env.lamp_power st), flow, uvt,
           (if uvt215 > 0 then some uvt215 else none), d1,
           parr.map pyRound1, earr.map pyRound1⟩) := by
    unfold calculate_red
    rw [if_neg (not_not_intro h1)]
    simp only [h2]
    rw [if_neg (fun hc => hc h3), if_neg h4]
    simp only [h5, h6, h7]
  constructor
  · intro hle
    rw [base, if_pos hle]
  · intro hpos
    rw [base, if_neg (not_le.mpr hpos)]

/-- Witness for C8: the zero-dose environment produces the `calculation`
failure; the ordinary environment produces the success outcome. -/
theorem c8_nonpositive_dose_sentinel_witness :
    calculate_red zeroDoseEnv "RZ-104-11" 100 85 (-1) 18 none none =
      .error ⟨"calculation", some "Calculation resulted in invalid RED value", none⟩
        ⟨"RZ-104-11", 100, 85, some emptySettings, some eff80⟩ ∧
    calculate_red testEnv "RZ-104-11" 100 85 (-1) 18 none none =
      .success (pyRound1 185)
        ⟨"RZ-104-11", 2, pyRound1 250, 100, 85, none, 18,
         [pyRound1 100, pyRound1 100], [pyRound1 100, pyRound1 100]⟩ := by
  constructor
  · with_unfolding_all
      exact (c8_nonpositive_dose_sentinel zeroDoseEnv "RZ-104-11" 100 85 (-1) 18 none none
        testRanges [100, 100] [100, 100] (fun _ _ _ _ _ _ _ => 0)
        (by decide) rfl (by with_unfolding_all rfl) (by decide)
        (by with_unfolding_all rfl) (by with_unfolding_all rfl)
        (by with_unfolding_all rfl)).1 le_rfl
  · with_unfolding_all
      exact (c8_nonpositive_dose_sentinel testEnv "RZ-104-11" 100 85 (-1) 18 none none
        testRanges [100, 100] [100, 100] (fun flow uvt _ _ _ _ _ => flow + uvt)
        (by decide) rfl (by with_unfolding_all rfl) (by decide)
        (by with_unfolding_all rfl) (by with_unfolding_all rfl)
        (by with_unfolding_all rfl)).2 (by norm_num)

/-- C9: a successful `calculate_red` outcome carries the native dose rounded to
one decimal place as its result; its details carry the lamp count, the lamp
power rounded to one decimal place, the echoed inputs — with `uvt215` reported
as the `N/A` sentinel exactly when the supplied `uvt215` is not positive — and
the per-lamp power and efficiency arrays with every element rounded to one
decimal place. -/
theorem c9_success_details (env : Env) (st : String)
    (flow uvt uvt215 d1 : ℚ) (ps es : Option Settings) (r : Ranges)
    (parr earr : List ℚ) (f : ℚ → ℚ → ℚ → List ℚ → List ℚ → ℚ → ℕ → ℚ)
    (h1 : st ∈ env.supported_systems)
    (h2 : getParameterRanges env.specs st = some r)
    (h3 : rangeValidationErrors r flow uvt = [])
    (h4 : env.lamp_count st ≠ 0)
    (h5 : buildArray (env.lamp_count st) RED_CALCULATOR_DEFAULT_DRIVE ps = .ok parr)
    (h6 : buildArray (env.lamp_count st) RED_CALCULATOR_DEFAULT_EFFICIENCY es = .ok earr)
    (h7 : env.red_function st = some f)
    (h8 : 0 < f flow uvt uvt215 parr earr d1 (env.lamp_count st)) :
    calculate_red env st flow uvt uvt215 d1 ps es =
      .success (pyRound1 (f flow uvt uvt215 parr earr d1 (env.lamp_count st)))
        ⟨st, env.lamp_count st, pyRound1 (env.lamp_power st), flow, uvt,
         (if uvt215 > 0 then some uvt215 else none), d1,
         parr.map pyRound1, earr.map pyRound1⟩ ∧
    ((if uvt215 > 0 then some uvt215 else (none : Option ℚ)) = none ↔ ¬(0 < uvt215)) := by
  constructor
  · unfold calculate_red
    rw [if_neg (not_not_intro h1)]
    simp only [h2]
    rw [if_neg (fun hc => hc h3), if_neg h4]
    simp only [h5, h6, h7]
    rw [if_neg (not_le.mpr h8)]
  · by_cases hpos : uvt215 > 0
    · simp [hpos]
    · simp [hpos]

/-- Witness for C9: success on `RZ-104-11` at flow `100`, uvt `85`, with the
default arrays; `uvt215 = -1` is not positive, so the details report the
sentinel (`none`, the model of the string `N/A`). -/
theorem c9_success_details_witness :
    calculate_red testEnv "RZ-104-11" 100 85 (-1) 18 none none =
      .success (pyRound1 185)
        ⟨"RZ-104-11", 2, pyRound1 250, 100, 85, none, 18,
         [pyRound1 100, pyRound1 100], [pyRound1 100, pyRound1 100]⟩ ∧
    ((if (-1 : ℚ) > 0 then some (-1 : ℚ) else (none : Option ℚ)) = none ↔
      ¬((0 : ℚ) < -1)) := by
  with_unfolding_all
    exact c9_success_details testEnv "RZ-104-11" 100 85 (-1) 18 none none
      testRanges [100, 100] [100, 100] (fun flow uvt _ _ _ _ _ => flow + uvt)
      (by decide) rfl (by with_unfolding_all rfl) (by decide)
      (by with_unfolding_all rfl) (by with_unfolding_all rfl)
      (by with_unfolding_all rfl) (by norm_num)

/-- C10: when the caller supplies no `efficiency_settings` and the request fails
the range-bounds check or the non-positive-dose check, the failure echoes
`efficiency_settings` as `{"all_lamps": 80.0}`, even though the efficiency
array actually built defaults every lamp to the configured value `100`; the
echoed default does not equal the applied default. -/
theorem c10_efficiency_echo_mismatch (env : Env) (st : String)
    (flow uvt uvt215 d1 : ℚ) (ps : Option Settings) (r : Ranges)
    (h1 : st ∈ env.supported_systems)
    (h2 : getParameterRanges env.specs st = some r) :
    (rangeValidationErrors r flow uvt ≠ [] →
      calculate_red env st flow uvt uvt215 d1 ps none =
        .error ⟨"validation", none, some (rangeValidationErrors r flow uvt)⟩
          ⟨st, flow, uvt, some (pyOr ps emptySettings), some eff80⟩) ∧
    (∀ (parr earr : List ℚ) (f : ℚ → ℚ → ℚ → List ℚ → List ℚ → ℚ → ℕ → ℚ),
      rangeValidationErrors r flow uvt = [] →
      env.lamp_count st ≠ 0 →
      buildArray (env.lamp_count st) RED_CALCULATOR_DEFAULT_DRIVE ps = .ok parr →
      buildArray (env.lamp_count st) RED_CALCULATOR_DEFAULT_EFFICIENCY none = .ok earr →
      env.red_function st = some f →
      f flow uvt uvt215 parr earr d1 (env.lamp_count st) ≤ 0 →
      calculate_red env st flow uvt uvt215 d1 ps none =
        .error ⟨"calculation", some "Calculation resulted in invalid RED value", none⟩
          ⟨st, flow, uvt, some (pyOr ps emptySettings), some eff80⟩) ∧
    (∀ n : ℕ, buildArray n RED_CALCULATOR_DEFAULT_EFFICIENCY none =
      .ok (List.replicate n RED_CALCULATOR_DEFAULT_EFFICIENCY)) ∧
    eff80.all_lamps = some 80 ∧
    RED_CALCULATOR_DEFAULT_EFFICIENCY = 100 ∧ (80 : ℚ) ≠ 100 := by
  refine ⟨?_, ?_, fun n => rfl, rfl, rfl, by norm_num⟩
  · intro h3
    unfold calculate_red
    rw [if_neg (not_not_intro h1)]
    simp only [h2]
    rw [if_pos h3]
    rfl
  · intro parr earr f h3 h4 h5 h6 h7 h8
    unfold calculate_red
    rw [if_neg (not_not_intro h1)]
    simp only [h2]
    rw [if_neg (fun hc => hc h3), if_neg h4]
    simp only [h5, h6, h7]
    rw [if_pos h8]
    rfl

/-- Witness for C10: out-of-range flow `1000` with no efficiency settings
echoes `{"all_lamps": 80.0}`; the zero-dose path does the same; the applied
default array is `[100, 100]`. -/
theorem c10_efficiency_echo_mismatch_witness :
    calculate_red testEnv "RZ-104-11" 1000 85 (-1) 18 none none =
      .error ⟨"validation", none, some (rangeValidationErrors testRanges 1000 85)⟩
        ⟨"RZ-104-11", 1000, 85, some emptySettings, some eff80⟩ ∧
    calculate_red zeroDoseEnv "RZ-104-11" 100 85 (-1) 18 none none =
      .error ⟨"calculation", some "Calculation resulted in invalid RED value", none⟩
        ⟨"RZ-104-11", 100, 85, some emptySettings, some eff80⟩ ∧
    buildArray 2 RED_CALCULATOR_DEFAULT_EFFICIENCY none =
      .ok (List.replicate 2 RED_CALCULATOR_DEFAULT_EFFICIENCY) := by
  refine ⟨?_, ?_, ?_⟩
  · with_unfolding_all
      exact (c10_efficiency_echo_mismatch testEnv "RZ-104-11" 1000 85 (-1) 18 none
        testRanges (by decide) rfl).1 (by with_unfolding_all decide)
  · with_unfolding_all
      exact (c10_efficiency_echo_mismatch zeroDoseEnv "RZ-104-11" 100 85 (-1) 18 none
        testRanges (by decide) rfl).2.1 [100, 100] [100, 100]
        (fun _ _ _ _ _ _ _ => 0) (by with_unfolding_all rfl) (by decide)
        (by with_unfolding_all rfl) (by with_unfolding_all rfl)
        (by with_unfolding_all rfl) le_rfl
  · exact (c10_efficiency_echo_mismatch testEnv "RZ-104-11" 100 85 (-1) 18 none
      testRanges (by decide) rfl).2.2.1 2

end ATLCalc
